import Mathlib

/-!
Shallow embedding of the interactive submission widget of the repository
(the CodingExercise component in src/theme.config.tsx).  The component keeps
three pieces of React state - code, isGrading, feedback - and one async
handler:

  handleSubmit:
    setIsGrading(true);
    const response = await fetch("/api/grade",
      { method: "POST", body: JSON.stringify({ code, lesson, correction }),
        headers: ... });
    const result = await response.json();
    setFeedback(result.feedback);
    setIsGrading(false);

The handler has no try/catch: when the fetch rejects (transport error) or
response.json() rejects (unparsable payload), the rejection terminates the
async function and the statements after the failed await never run.  The
response status is never inspected, so a resolved fetch proceeds identically
for any HTTP status.  The JSX renders the trigger button with
disabled = isGrading, label "Grading..." while grading and "Submit" otherwise,
and renders the feedback panel only when the feedback string is truthy
(non-empty).

We model the component as an event-driven machine.  The phase field records
where the single async invocation of handleSubmit is suspended; events deliver
the resolution or rejection of each awaited promise.  Each step returns the
next state together with the list of network requests it issues.
-/

namespace CodingExercise

/-- The three props of the component; each is optional and the destructuring
defaults the missing ones to the empty string. -/
structure Props where
  initCode : Option String
  lesson : Option String
  correction : Option String
deriving DecidableEq

/-- One outbound network request, as issued by the fetch call: the url, the
method, and the JSON body as an ordered list of key-value pairs.  The object
literal in the source has exactly the keys code, lesson, correction, in that
order. -/
structure GradeRequest where
  url : String
  method : String
  body : List (String × String)
deriving DecidableEq

/-- Where the single async invocation of handleSubmit is suspended:
nowhere (no invocation running), at the first await (fetch), or at the
second await (response.json()). -/
inductive Phase where
  | idlePhase
  | awaitFetch
  | awaitJson
deriving DecidableEq

/-- The component state: the three useState cells, plus the suspension point
of the in-flight handleSubmit invocation, if any. -/
structure Component where
  code : String
  isGrading : Bool
  feedback : String
  phase : Phase
deriving DecidableEq

/-- Mounting the component: useState(initCode), useState(false), useState(""),
with the missing props defaulted to "" by the destructuring. -/
def initComponent (p : Props) : Component :=
  { code := p.initCode.getD ""
    isGrading := false
    feedback := ""
    phase := Phase.idlePhase }

/-- The events the machine reacts to: a click on the trigger button, an
editor change (onChange of the code editor), and the settlement of each of
the two awaited promises of handleSubmit.  fetchResolved carries no status
because the source never reads it; jsonResolved carries the feedback field
of the parsed body. -/
inductive Event where
  | click
  | edit (newText : String)
  | fetchResolved
  | fetchRejected
  | jsonResolved (fb : String)
  | jsonRejected
deriving DecidableEq

/-- The request issued by the fetch call of handleSubmit, built from the
current code text and the two context props. -/
def gradeRequest (p : Props) (c : Component) : GradeRequest :=
  { url := "/api/grade"
    method := "POST"
    body := [("code", c.code), ("lesson", p.lesson.getD ""),
             ("correction", p.correction.getD "")] }

/-- One transition of the component.  A click on a disabled button (isGrading
true) does nothing; otherwise handleSubmit runs up to its first await:
setIsGrading(true) and the fetch is issued.  Edits always go through
(the editor is never disabled).  A rejected await terminates the async
function: the remaining statements are skipped, so neither setFeedback nor
setIsGrading(false) runs.  A resolved response.json() runs the tail of the
handler: setFeedback(result.feedback) then setIsGrading(false). -/
def step (p : Props) (c : Component) (e : Event) : Component × List GradeRequest :=
  match e with
  | Event.click =>
      if c.isGrading then (c, [])
      else ({ c with isGrading := true, phase := Phase.awaitFetch }, [gradeRequest p c])
  | Event.edit t => ({ c with code := t }, [])
  | Event.fetchResolved =>
      if c.phase = Phase.awaitFetch then ({ c with phase := Phase.awaitJson }, []) else (c, [])
  | Event.fetchRejected =>
      if c.phase = Phase.awaitFetch then ({ c with phase := Phase.idlePhase }, []) else (c, [])
  | Event.jsonResolved fb =>
      if c.phase = Phase.awaitJson then
        ({ c with feedback := fb, isGrading := false, phase := Phase.idlePhase }, [])
      else (c, [])
  | Event.jsonRejected =>
      if c.phase = Phase.awaitJson then ({ c with phase := Phase.idlePhase }, []) else (c, [])

/-- Run a sequence of events, accumulating the network requests issued. -/
def run (p : Props) (c : Component) : List Event → Component × List GradeRequest
  | [] => (c, [])
  | e :: es =>
      ((run p (step p c e).1 es).1, (step p c e).2 ++ (run p (step p c e).1 es).2)

/-- The disabled attribute of the trigger button in the JSX. -/
def buttonDisabled (c : Component) : Bool := c.isGrading

/-- The label of the trigger button in the JSX. -/
def buttonLabel (c : Component) : String :=
  if c.isGrading then "Grading..." else "Submit"

/-- Whether the feedback panel is rendered: the JSX guards it with the
truthiness of the feedback string, which for a string means non-emptiness. -/
def feedbackShown (c : Component) : Bool := c.feedback != ""

/-- C6: for every seed string and pair of context strings, mounting the
component yields a state whose editable text equals the seed, whose
submitting flag is false (idle), and which shows no feedback. -/
theorem C6_initial_state (seed la lb : String) :
    (initComponent ⟨some seed, some la, some lb⟩).code = seed ∧
    (initComponent ⟨some seed, some la, some lb⟩).isGrading = false ∧
    (initComponent ⟨some seed, some la, some lb⟩).feedback = "" ∧
    feedbackShown (initComponent ⟨some seed, some la, some lb⟩) = false := by
  refine ⟨rfl, rfl, rfl, ?_⟩
  simp [feedbackShown, initComponent]

/-- C7: in every state (idle or grading) and for every new text, an edit
replaces the editable text, leaves the submitting flag and the feedback
unchanged, issues no network request, and always succeeds (the step is a
total function). -/
theorem C7_edit_pure (p : Props) (c : Component) (t : String) :
    (step p c (Event.edit t)).1.code = t ∧
    (step p c (Event.edit t)).1.isGrading = c.isGrading ∧
    (step p c (Event.edit t)).1.feedback = c.feedback ∧
    (step p c (Event.edit t)).2 = [] :=
  ⟨rfl, rfl, rfl, rfl⟩

/-- C3: a click while the component is grading (the button is disabled) is a
no-op: the state is unchanged and no second network request is issued. -/
theorem C3_no_reentry (p : Props) (c : Component) (h : c.isGrading = true) :
    step p c Event.click = (c, []) := by
  simp [step, h]

/-- Witness for C3 at a concrete grading state. -/
theorem C3_no_reentry_witness :
    step ⟨none, none, none⟩ ⟨"x = 1", true, "", Phase.awaitFetch⟩ Event.click
      = (⟨"x = 1", true, "", Phase.awaitFetch⟩, []) :=
  C3_no_reentry ⟨none, none, none⟩ ⟨"x = 1", true, "", Phase.awaitFetch⟩ rfl

/-- C10: with all three props omitted, the component mounts with empty editor
text, and a submit sends empty strings for the two context fields. -/
theorem C10_default_props :
    initComponent ⟨none, none, none⟩
      = ⟨"", false, "", Phase.idlePhase⟩ ∧
    (step ⟨none, none, none⟩ (initComponent ⟨none, none, none⟩) Event.click).2
      = [⟨"/api/grade", "POST", [("code", ""), ("lesson", ""), ("correction", "")]⟩] := by
  exact ⟨rfl, rfl⟩

/-- C4: a click from an idle state issues exactly one request, with method
POST, whose JSON body has exactly the keys code, lesson and correction
bound to the current editor text and the two context props; the settlement
events of the submission issue no further request. -/
theorem C4_single_post (p : Props) (c : Component) (h : c.isGrading = false)
    (fb : String) :
    (step p c Event.click).2
      = [⟨"/api/grade", "POST",
          [("code", c.code), ("lesson", p.lesson.getD ""),
           ("correction", p.correction.getD "")]⟩] ∧
    (run p c [Event.click, Event.fetchResolved, Event.jsonResolved fb]).2
      = [⟨"/api/grade", "POST",
          [("code", c.code), ("lesson", p.lesson.getD ""),
           ("correction", p.correction.getD "")]⟩] := by
  constructor <;> simp [run, step, gradeRequest, h]

/-- Witness for C4 at the concrete inputs of the claim. -/
theorem C4_single_post_witness :
    (step ⟨some "print(\x27hi\x27)", some "lesson-1", some "def f(): pass"⟩
        (initComponent ⟨some "print(\x27hi\x27)", some "lesson-1", some "def f(): pass"⟩)
        Event.click).2
      = [⟨"/api/grade", "POST",
          [("code", "print(\x27hi\x27)"), ("lesson", "lesson-1"),
           ("correction", "def f(): pass")]⟩] ∧
    (run ⟨some "print(\x27hi\x27)", some "lesson-1", some "def f(): pass"⟩
        (initComponent ⟨some "print(\x27hi\x27)", some "lesson-1", some "def f(): pass"⟩)
        [Event.click, Event.fetchResolved, Event.jsonResolved "Looks good"]).2
      = [⟨"/api/grade", "POST",
          [("code", "print(\x27hi\x27)"), ("lesson", "lesson-1"),
           ("correction", "def f(): pass")]⟩] :=
  C4_single_post ⟨some "print(\x27hi\x27)", some "lesson-1", some "def f(): pass"⟩
    (initComponent ⟨some "print(\x27hi\x27)", some "lesson-1", some "def f(): pass"⟩)
    rfl "Looks good"

/-- C5: on the successful path the steps happen in order: the click marks the
state as grading and issues the single request carrying the code and the two
context strings; once the response resolves and its body parses, the feedback
field is stored (replacing whatever feedback was stored before) and the
grading flag is cleared. -/
theorem C5_success_sequence (p : Props) (c : Component) (h : c.isGrading = false)
    (fb : String) :
    (step p c Event.click).1.isGrading = true ∧
    (step p c Event.click).2 = [gradeRequest p c] ∧
    (run p c [Event.click, Event.fetchResolved, Event.jsonResolved fb]).1.feedback = fb ∧
    (run p c [Event.click, Event.fetchResolved, Event.jsonResolved fb]).1.isGrading = false := by
  refine ⟨?_, ?_, ?_, ?_⟩ <;> simp [run, step, gradeRequest, h]

/-- Witness for C5: a concrete successful submission replacing old feedback. -/
theorem C5_success_sequence_witness :
    (step ⟨some "x = 1", some "l1", some "s1"⟩ ⟨"x = 2", false, "old feedback", Phase.idlePhase⟩
        Event.click).1.isGrading = true ∧
    (step ⟨some "x = 1", some "l1", some "s1"⟩ ⟨"x = 2", false, "old feedback", Phase.idlePhase⟩
        Event.click).2
      = [gradeRequest ⟨some "x = 1", some "l1", some "s1"⟩
          ⟨"x = 2", false, "old feedback", Phase.idlePhase⟩] ∧
    (run ⟨some "x = 1", some "l1", some "s1"⟩ ⟨"x = 2", false, "old feedback", Phase.idlePhase⟩
        [Event.click, Event.fetchResolved, Event.jsonResolved "Looks good"]).1.feedback
      = "Looks good" ∧
    (run ⟨some "x = 1", some "l1", some "s1"⟩ ⟨"x = 2", false, "old feedback", Phase.idlePhase⟩
        [Event.click, Event.fetchResolved, Event.jsonResolved "Looks good"]).1.isGrading
      = false :=
  C5_success_sequence ⟨some "x = 1", some "l1", some "s1"⟩
    ⟨"x = 2", false, "old feedback", Phase.idlePhase⟩ rfl "Looks good"

/-- C8: no step of the submission ever writes the editable text - only an
edit event does - so an edit made while the submission is in flight is still
present after the submission resolves. -/
theorem C8_submission_preserves_code (p : Props) (c : Component) (fb t : String) :
    (step p c Event.click).1.code = c.code ∧
    (step p c Event.fetchResolved).1.code = c.code ∧
    (step p c Event.fetchRejected).1.code = c.code ∧
    (step p c (Event.jsonResolved fb)).1.code = c.code ∧
    (step p c Event.jsonRejected).1.code = c.code ∧
    (run p c [Event.click, Event.edit t, Event.fetchResolved, Event.jsonResolved fb]).1.code = t := by
  refine ⟨?_, ?_, ?_, ?_, ?_, ?_⟩ <;>
    cases hg : c.isGrading <;> cases hp : c.phase <;> simp [run, step, hg, hp]

/-- C9: the feedback panel is rendered exactly when the stored feedback
string is non-empty; in particular a successful submission whose feedback
field is the empty string leaves the component in a state identical to the
freshly mounted one - no feedback shown at all. -/
theorem C9_feedback_shown_iff (p : Props) (c : Component) :
    (feedbackShown c = true ↔ c.feedback ≠ "") ∧
    (run p (initComponent p) [Event.click, Event.fetchResolved, Event.jsonResolved ""]).1
      = initComponent p := by
  constructor
  · simp [feedbackShown]
  · simp [run, step, initComponent]

/-- C1 counterexample: a transport error settles the submission (the async
invocation has fully resolved, phase back to idle) yet the grading flag is
still set - the widget is left in Submitting, refuting the claim that every
outcome clears the flag. -/
theorem C1_counterexample :
    (run ⟨some "x = 1", some "l1", some "s1"⟩
        (initComponent ⟨some "x = 1", some "l1", some "s1"⟩)
        [Event.click, Event.fetchRejected]).1.phase = Phase.idlePhase ∧
    (run ⟨some "x = 1", some "l1", some "s1"⟩
        (initComponent ⟨some "x = 1", some "l1", some "s1"⟩)
        [Event.click, Event.fetchRejected]).1.isGrading = true := by
  exact ⟨rfl, rfl⟩

/-- C1 amended: the grading flag is cleared only on the path where the fetch
resolves and the body parses; a transport error or an unparsable payload
terminates the handler early, the flag stays set, and the widget remains in
Submitting even though no invocation is still running. -/
theorem C1_flag_only_cleared_on_success (p : Props) (c : Component)
    (h : c.isGrading = false) (fb : String) :
    (run p c [Event.click, Event.fetchResolved, Event.jsonResolved fb]).1.isGrading = false ∧
    (run p c [Event.click, Event.fetchRejected]).1.isGrading = true ∧
    (run p c [Event.click, Event.fetchRejected]).1.phase = Phase.idlePhase ∧
    (run p c [Event.click, Event.fetchResolved, Event.jsonRejected]).1.isGrading = true ∧
    (run p c [Event.click, Event.fetchResolved, Event.jsonRejected]).1.phase = Phase.idlePhase := by
  refine ⟨?_, ?_, ?_, ?_, ?_⟩ <;> simp [run, step, h]

/-- Witness for the amended C1 at a freshly mounted component. -/
theorem C1_flag_only_cleared_on_success_witness :
    (run ⟨some "y = 2", some "l2", some "s2"⟩
        (initComponent ⟨some "y = 2", some "l2", some "s2"⟩)
        [Event.click, Event.fetchResolved, Event.jsonResolved "ok"]).1.isGrading = false ∧
    (run ⟨some "y = 2", some "l2", some "s2"⟩
        (initComponent ⟨some "y = 2", some "l2", some "s2"⟩)
        [Event.click, Event.fetchRejected]).1.isGrading = true ∧
    (run ⟨some "y = 2", some "l2", some "s2"⟩
        (initComponent ⟨some "y = 2", some "l2", some "s2"⟩)
        [Event.click, Event.fetchRejected]).1.phase = Phase.idlePhase ∧
    (run ⟨some "y = 2", some "l2", some "s2"⟩
        (initComponent ⟨some "y = 2", some "l2", some "s2"⟩)
        [Event.click, Event.fetchResolved, Event.jsonRejected]).1.isGrading = true ∧
    (run ⟨some "y = 2", some "l2", some "s2"⟩
        (initComponent ⟨some "y = 2", some "l2", some "s2"⟩)
        [Event.click, Event.fetchResolved, Event.jsonRejected]).1.phase = Phase.idlePhase :=
  C1_flag_only_cleared_on_success ⟨some "y = 2", some "l2", some "s2"⟩
    (initComponent ⟨some "y = 2", some "l2", some "s2"⟩) rfl "ok"

/-- C2 counterexample: a successful submission stores feedback, then a second
submission fails with a transport error; afterwards the stale feedback is
still displayed as if it had succeeded, the grading flag is still set and the
trigger button is still disabled - refuting the claim that a failed submit
returns to idle, shows an error indication and re-enables the trigger. -/
theorem C2_counterexample :
    (run ⟨some "x = 3", some "l3", some "s3"⟩
        (initComponent ⟨some "x = 3", some "l3", some "s3"⟩)
        [Event.click, Event.fetchResolved, Event.jsonResolved "Looks good",
         Event.click, Event.fetchRejected]).1.feedback = "Looks good" ∧
    feedbackShown (run ⟨some "x = 3", some "l3", some "s3"⟩
        (initComponent ⟨some "x = 3", some "l3", some "s3"⟩)
        [Event.click, Event.fetchResolved, Event.jsonResolved "Looks good",
         Event.click, Event.fetchRejected]).1 = true ∧
    buttonDisabled (run ⟨some "x = 3", some "l3", some "s3"⟩
        (initComponent ⟨some "x = 3", some "l3", some "s3"⟩)
        [Event.click, Event.fetchResolved, Event.jsonResolved "Looks good",
         Event.click, Event.fetchRejected]).1 = true ∧
    (run ⟨some "x = 3", some "l3", some "s3"⟩
        (initComponent ⟨some "x = 3", some "l3", some "s3"⟩)
        [Event.click, Event.fetchResolved, Event.jsonResolved "Looks good",
         Event.click, Event.fetchRejected]).1.isGrading = true := by
  refine ⟨rfl, ?_, rfl, rfl⟩
  simp [feedbackShown, run, step, initComponent, gradeRequest]

/-- C2 amended: on a transport error or an unparsable payload the component
keeps the previously stored feedback unchanged, surfaces no error indication
(there is no error state at all), the grading flag stays set, and the trigger
button remains disabled rather than becoming actionable again. -/
theorem C2_failure_keeps_stale_state (p : Props) (c : Component)
    (h : c.isGrading = false) :
    (run p c [Event.click, Event.fetchRejected]).1.feedback = c.feedback ∧
    buttonDisabled (run p c [Event.click, Event.fetchRejected]).1 = true ∧
    (run p c [Event.click, Event.fetchResolved, Event.jsonRejected]).1.feedback = c.feedback ∧
    buttonDisabled (run p c [Event.click, Event.fetchResolved, Event.jsonRejected]).1 = true := by
  refine ⟨?_, ?_, ?_, ?_⟩ <;> simp [run, step, buttonDisabled, h]

/-- Witness for the amended C2 at a state holding earlier feedback. -/
theorem C2_failure_keeps_stale_state_witness :
    (run ⟨some "x = 4", some "l4", some "s4"⟩
        ⟨"x = 5", false, "earlier feedback", Phase.idlePhase⟩
        [Event.click, Event.fetchRejected]).1.feedback = "earlier feedback" ∧
    buttonDisabled (run ⟨some "x = 4", some "l4", some "s4"⟩
        ⟨"x = 5", false, "earlier feedback", Phase.idlePhase⟩
        [Event.click, Event.fetchRejected]).1 = true ∧
    (run ⟨some "x = 4", some "l4", some "s4"⟩
        ⟨"x = 5", false, "earlier feedback", Phase.idlePhase⟩
        [Event.click, Event.fetchResolved, Event.jsonRejected]).1.feedback
      = "earlier feedback" ∧
    buttonDisabled (run ⟨some "x = 4", some "l4", some "s4"⟩
        ⟨"x = 5", false, "earlier feedback", Phase.idlePhase⟩
        [Event.click, Event.fetchResolved, Event.jsonRejected]).1 = true :=
  C2_failure_keeps_stale_state ⟨some "x = 4", some "l4", some "s4"⟩
    ⟨"x = 5", false, "earlier feedback", Phase.idlePhase⟩ rfl

end CodingExercise
